import Mathlib

/-!
Shallow embedding of the snapshot-based state recovery engine of
core/lib/zksync_core/src/sync_layer/snapshots.rs, of the gas-price fetcher in
core/lib/zksync_core/src/l1_gas_price/main_node_fetcher.rs, and of the consensus
wiring layer in core/node/node_framework/src/implementations/layers/consensus.rs.

Stateful code is embedded as explicit state passing over a `SnapshotApplier`
record that accumulates an ordered trace of storage, blob-store, tree and
logging effects (`Event`). External collaborators (blob store, peer client,
Postgres DAL layers, the merkle tree) are modelled at their interface boundary:
the blob store is a function from chunk storage keys to chunk payloads, and each
DAL or tree call is recorded as one trace event carrying the arguments the
source passes to it. Machine integers (u32/u64) are modelled as Nat: no
arithmetic in the embedded code can overflow in the scenarios the claims are
about, and none of the claims depends on wrap-around.
-/

namespace ZkSync

/-- Mirrors zksync_types::snapshots::AppliedSnapshotStatus: the persisted
recovery progress record (target batch, finished flag, nullable cursor). -/
structure AppliedSnapshotStatus where
  l1_batch_number : Nat
  is_finished : Bool
  last_finished_chunk_id : Option Nat
deriving DecidableEq, Repr

/-- Storage keys are abstract identifiers; the hashing of keys lives in
zksync_types (outside the shown source) and no claim depends on its values. -/
abbrev StorageKey := Nat

/-- Models StorageKey::hashed_key_u256 (external to the shown source); the hash
function itself is irrelevant to every claim, only which field is passed where. -/
def StorageKey.hashed_key_u256 (k : StorageKey) : Nat := k

/-- Mirrors zksync_types::snapshots::SnapshotStorageLog (the fields the shown
source reads: key, value, enumeration_index). -/
structure SnapshotStorageLog where
  key : StorageKey
  value : Nat
  enumeration_index : Nat
deriving DecidableEq, Repr

/-- Mirrors zksync_types::snapshots::SnapshotFactoryDependency. -/
structure SnapshotFactoryDependency where
  bytecode_hash : Nat
  bytecode : List Nat
deriving DecidableEq, Repr

/-- Mirrors zksync_types::snapshots::SnapshotChunk: one blob's payload. -/
structure SnapshotChunk where
  factory_deps : List SnapshotFactoryDependency
  storage_logs : List SnapshotStorageLog
deriving DecidableEq, Repr

/-- Mirrors the chunk storage key; the shown source reads only its chunk_id
(snapshots.rs:322). -/
structure SnapshotStorageKey where
  chunk_id : Nat
deriving DecidableEq, Repr

/-- Mirrors zksync_types::snapshots::SnapshotChunkMetadata. -/
structure SnapshotChunkMetadata where
  key : SnapshotStorageKey
  filepath : String
deriving DecidableEq, Repr

/-- Mirrors zksync_types::snapshots::SnapshotHeader as the shown source uses it:
l1_batch_number, miniblock_number, generated_at, the number of the last L1 batch
with metadata (snapshots.rs:246-248), and the chunk descriptor list. -/
structure SnapshotHeader where
  l1_batch_number : Nat
  miniblock_number : Nat
  generated_at : Nat
  last_l1_batch_number : Nat
  chunks : List SnapshotChunkMetadata
deriving DecidableEq, Repr

/-- Mirrors zksync_types::StorageLogKind. -/
inductive StorageLogKind where
  | Read
  | Write
deriving DecidableEq, Repr

/-- Mirrors zksync_types::StorageLog as built in sync_storage_logs_chunk
(snapshots.rs:280-284). -/
structure StorageLog where
  kind : StorageLogKind
  key : StorageKey
  value : Nat
deriving DecidableEq, Repr

/-- Mirrors zksync_merkle_tree::recovery::RecoveryEntry as built in
sync_tree_chunk (snapshots.rs:296-300). -/
structure RecoveryEntry where
  key : Nat
  value : Nat
  leaf_index : Nat
deriving DecidableEq, Repr

/-- One observable effect of the applier, in program order. Each constructor
records one call the source makes into a collaborator (Postgres DAL, blob
store, merkle tree recovery handle) or one log line relevant to a claim. -/
inductive Event where
  | fetchL2Block (miniblock : Nat)
  | saveProtocolVersion
  | insertMiniblock (number : Nat)
  | updateHashes (number : Nat)
  | insertL1Batch (number : Nat)
  | saveL1BatchMetadata (number : Nat)
  | markMiniblocksExecuted (number : Nat)
  | logSkipAlreadyProcessed (chunk_id : Nat)
  | fetchBlob (key : SnapshotStorageKey)
  | writeFactoryDeps (miniblock : Nat) (deps : List (Nat × List Nat))
  | writeStorageLogs (miniblock : Nat) (logs : List StorageLog)
  | writeInitialWrites (l1_batch : Nat) (keys : List StorageKey)
  | treeExtend (entries : List RecoveryEntry)
  | setStatus (status : AppliedSnapshotStatus)
  | treeFinalize
  | runStateKeeper
  | runMetadataCalculator
  | clearDummyHeaders (l1_batch : Nat) (miniblock : Nat)
deriving DecidableEq, Repr

/-- The applier state: the in-memory progress record, the discovered snapshot
header, and the accumulated effect trace (snapshots.rs:34-43; the storage
connection, client, blob store and tree handle are represented by the trace). -/
structure SnapshotApplier where
  status : AppliedSnapshotStatus
  snapshot : SnapshotHeader
  events : List Event
deriving Repr

/-- Append one effect to the trace. -/
def emit (a : SnapshotApplier) (e : Event) : SnapshotApplier :=
  { a with events := a.events ++ [e] }

/-- Mirrors the SnapshotApplierError enum (snapshots.rs:45-53). -/
inductive SnapshotApplierError where
  | Canceled (msg : String)
  | Fatal (msg : String)
  | Retryable (msg : String)
deriving DecidableEq, Repr

/-- The guard of the second precondition check (snapshots.rs:77-78):
is_some() combined with unwrap().is_finished. -/
def statusIsFinished : Option AppliedSnapshotStatus → Bool
  | some s => s.is_finished
  | none => false

/-- Mirrors SnapshotApplier::new (snapshots.rs:56-128). Inputs: whether genesis
is still needed (blocks_dal().is_genesis_needed()), the stored progress record
(applied_snapshot_status_dal), the peer response (client.fetch_newest_snapshot),
and whether creating the snapshots object store succeeds (the one fallible step
routed through question-mark into Fatal, snapshots.rs:108-111). Returns the
progress record to use, the snapshot header, and the recovered tree version
passed to MerkleTreeRecovery::new (snapshots.rs:102-106). -/
def SnapshotApplier.new (genesis_needed : Bool)
    (existing : Option AppliedSnapshotStatus)
    (snapshot_response : Option SnapshotHeader) (blob_store_ok : Bool) :
    Except SnapshotApplierError (AppliedSnapshotStatus × SnapshotHeader × Nat) :=
  if !genesis_needed && existing.isNone then
    Except.error (SnapshotApplierError.Canceled
      "This node has already been initialized without a snapshot")
  else if statusIsFinished existing then
    Except.error (SnapshotApplierError.Canceled
      "This node has already been initialized from a snapshot")
  else
    match snapshot_response with
    | none => Except.error (SnapshotApplierError.Canceled
        "Main node does not have any ready snapshots, skipping initialization from snapshot!")
    | some snapshot =>
      let applied_snapshot_status := existing.getD
        { l1_batch_number := snapshot.l1_batch_number, is_finished := false,
          last_finished_chunk_id := none }
      let recovered_version := snapshot.l1_batch_number
      if blob_store_ok then
        Except.ok (applied_snapshot_status, snapshot, recovered_version)
      else
        Except.error (SnapshotApplierError.Fatal "ObjectStoreFactor::snapshots_from_env()")

/-- Mirrors sync_factory_deps_chunk (snapshots.rs:306-317): a single
insert_factory_deps write unless the chunk carries no factory dependencies. -/
def sync_factory_deps_chunk (a : SnapshotApplier)
    (factory_deps : List SnapshotFactoryDependency) : SnapshotApplier :=
  if factory_deps.isEmpty then a
  else emit a (Event.writeFactoryDeps a.snapshot.miniblock_number
    (factory_deps.map fun dep => (dep.bytecode_hash, dep.bytecode)))

/-- Mirrors sync_storage_logs_chunk (snapshots.rs:276-290): append Write-kind
storage logs under the snapshot's miniblock. -/
def sync_storage_logs_chunk (a : SnapshotApplier)
    (storage_logs : List SnapshotStorageLog) : SnapshotApplier :=
  emit a (Event.writeStorageLogs a.snapshot.miniblock_number
    (storage_logs.map fun log =>
      { kind := StorageLogKind.Write, key := log.key, value := log.value }))

/-- Mirrors sync_initial_writes_chunk (snapshots.rs:267-275): dedup records for
the snapshot's target batch. -/
def sync_initial_writes_chunk (a : SnapshotApplier)
    (storage_logs : List SnapshotStorageLog) : SnapshotApplier :=
  emit a (Event.writeInitialWrites a.snapshot.l1_batch_number
    (storage_logs.map fun log => log.key))

/-- Mirrors sync_tree_chunk (snapshots.rs:292-304): extend the recovery tree
with (hashed key, value, leaf index) triples. -/
def sync_tree_chunk (a : SnapshotApplier)
    (storage_logs : List SnapshotStorageLog) : SnapshotApplier :=
  emit a (Event.treeExtend (storage_logs.map fun log =>
    { key := StorageKey.hashed_key_u256 log.key, value := log.value,
      leaf_index := log.enumeration_index }))

/-- Mirrors set_applied_snapshot_status through the DAL: updates the in-memory
record and records the durable write. -/
def set_applied_snapshot_status (a : SnapshotApplier)
    (st : AppliedSnapshotStatus) : SnapshotApplier :=
  { status := st, snapshot := a.snapshot, events := a.events ++ [Event.setStatus st] }

/-- The condition of the resume check exactly as written in the source
(snapshots.rs:323-328): last_finished_chunk_id.is_some() combined with
chunk_id GREATER THAN last_finished_chunk_id.unwrap(). Note the comparison
direction: it fires for chunks beyond the cursor, and it guards only a log
line. -/
def skipLogCond (st : AppliedSnapshotStatus) (chunk_id : Nat) : Bool :=
  match st.last_finished_chunk_id with
  | some last => decide (chunk_id > last)
  | none => false

/-- Mirrors sync_single_chunk (snapshots.rs:319-358): the skip check logs and
falls through; then the blob is fetched and factory deps, storage logs, dedup
records and tree entries are written in that order; finally the cursor is set
to this chunk's id and persisted. -/
def sync_single_chunk (blob_store : SnapshotStorageKey → SnapshotChunk)
    (a : SnapshotApplier) (chunk_metadata : SnapshotChunkMetadata) : SnapshotApplier :=
  let chunk_id := chunk_metadata.key.chunk_id
  let a1 := if skipLogCond a.status chunk_id then
      emit a (Event.logSkipAlreadyProcessed chunk_id)
    else a
  let a2 := emit a1 (Event.fetchBlob chunk_metadata.key)
  let chunk := blob_store chunk_metadata.key
  let a3 := sync_factory_deps_chunk a2 chunk.factory_deps
  let a4 := sync_storage_logs_chunk a3 chunk.storage_logs
  let a5 := sync_initial_writes_chunk a4 chunk.storage_logs
  let a6 := sync_tree_chunk a5 chunk.storage_logs
  set_applied_snapshot_status a6
    { a6.status with last_finished_chunk_id := some chunk_id }

/-- Mirrors insert_dummy_miniblock_header (snapshots.rs:211-243): fetch the
terminal block from the peer, save its protocol version, insert the placeholder
miniblock, update hashes. -/
def insert_dummy_miniblock_header (a : SnapshotApplier) : SnapshotApplier :=
  let a1 := emit a (Event.fetchL2Block a.snapshot.miniblock_number)
  let a2 := emit a1 Event.saveProtocolVersion
  let a3 := emit a2 (Event.insertMiniblock a.snapshot.miniblock_number)
  emit a3 (Event.updateHashes a.snapshot.miniblock_number)

/-- Mirrors insert_dummy_l1_batch_metadata (snapshots.rs:245-265): insert the
placeholder batch header and metadata taken from
snapshot.last_l1_batch_with_metadata. -/
def insert_dummy_l1_batch_metadata (a : SnapshotApplier) : SnapshotApplier :=
  let a1 := emit a (Event.insertL1Batch a.snapshot.last_l1_batch_number)
  let a2 := emit a1 (Event.saveL1BatchMetadata a.snapshot.last_l1_batch_number)
  emit a2 (Event.markMiniblocksExecuted a.snapshot.last_l1_batch_number)

/-- Mirrors finalize_applying_snapshot (snapshots.rs:367-407): finalize the
tree, run the state keeper once, run the metadata calculator once, set the
finished flag and persist it, then clear the dummy headers. -/
def finalize_applying_snapshot (a : SnapshotApplier) : SnapshotApplier :=
  let a1 := emit a Event.treeFinalize
  let a2 := emit a1 Event.runStateKeeper
  let a3 := emit a2 Event.runMetadataCalculator
  let a4 := set_applied_snapshot_status a3 { a3.status with is_finished := true }
  emit a4 (Event.clearDummyHeaders a4.snapshot.l1_batch_number a4.snapshot.miniblock_number)

/-- Mirrors load_snapshot (snapshots.rs:409-421): placeholders, then the chunk
loop over snapshot.chunks in header order, then finalization. -/
def load_snapshot (blob_store : SnapshotStorageKey → SnapshotChunk)
    (a : SnapshotApplier) : SnapshotApplier :=
  let a1 := insert_dummy_miniblock_header a
  let a2 := insert_dummy_l1_batch_metadata a1
  let a3 := a2.snapshot.chunks.foldl (sync_single_chunk blob_store) a2
  finalize_applying_snapshot a3

/-- Outcome of the top-level entry point: either it returns Ok(()) to the
caller, or a panic (an unwrap of an Err) aborts the process. -/
inductive RunOutcome where
  | normal
  | panicked
deriving DecidableEq, Repr

/-- Mirrors load_from_snapshot_if_needed (snapshots.rs:424-444): the result of
SnapshotApplier::new is unwrapped (snapshots.rs:431-439), so ANY error from
construction, Canceled included, panics; otherwise load_snapshot runs and its
Ok result is unwrapped. -/
def load_from_snapshot_if_needed (blob_store : SnapshotStorageKey → SnapshotChunk)
    (genesis_needed : Bool) (existing : Option AppliedSnapshotStatus)
    (snapshot_response : Option SnapshotHeader) (blob_store_ok : Bool) : RunOutcome :=
  match SnapshotApplier.new genesis_needed existing snapshot_response blob_store_ok with
  | Except.error _ => RunOutcome.panicked
  | Except.ok (st, snap, _version) =>
    let _applier := load_snapshot blob_store { status := st, snapshot := snap, events := [] }
    RunOutcome.normal

/-! Normal forms for the applier's effect trace. These are separate recursive
definitions of the per-chunk effect list and the status evolution; the lemmas
below prove that the embedded source functions compute them. -/

/-- The in-memory record after advancing the cursor to chunk_id
(snapshots.rs:352). -/
def newCursorStatus (st : AppliedSnapshotStatus) (chunk_id : Nat) : AppliedSnapshotStatus :=
  { st with last_finished_chunk_id := some chunk_id }

/-- The effect list of one sync_single_chunk call started with record st. -/
def chunkEvents (blob_store : SnapshotStorageKey → SnapshotChunk)
    (snap : SnapshotHeader) (st : AppliedSnapshotStatus)
    (m : SnapshotChunkMetadata) : List Event :=
  (if skipLogCond st m.key.chunk_id then [Event.logSkipAlreadyProcessed m.key.chunk_id] else [])
  ++ [Event.fetchBlob m.key]
  ++ (if (blob_store m.key).factory_deps.isEmpty then []
      else [Event.writeFactoryDeps snap.miniblock_number
        ((blob_store m.key).factory_deps.map fun dep => (dep.bytecode_hash, dep.bytecode))])
  ++ [Event.writeStorageLogs snap.miniblock_number
        ((blob_store m.key).storage_logs.map fun log =>
          { kind := StorageLogKind.Write, key := log.key, value := log.value }),
      Event.writeInitialWrites snap.l1_batch_number
        ((blob_store m.key).storage_logs.map fun log => log.key),
      Event.treeExtend ((blob_store m.key).storage_logs.map fun log =>
        { key := StorageKey.hashed_key_u256 log.key, value := log.value,
          leaf_index := log.enumeration_index }),
      Event.setStatus (newCursorStatus st m.key.chunk_id)]

/-- The record after the whole chunk loop. -/
def statusAfterChunks (st : AppliedSnapshotStatus) :
    List SnapshotChunkMetadata → AppliedSnapshotStatus
  | [] => st
  | m :: ms => statusAfterChunks (newCursorStatus st m.key.chunk_id) ms

/-- The effect list of the whole chunk loop. -/
def chunkTrace (blob_store : SnapshotStorageKey → SnapshotChunk)
    (snap : SnapshotHeader) :
    AppliedSnapshotStatus → List SnapshotChunkMetadata → List Event
  | _, [] => []
  | st, m :: ms =>
    chunkEvents blob_store snap st m
      ++ chunkTrace blob_store snap (newCursorStatus st m.key.chunk_id) ms

/-- The effect list of the placeholder-seeding phase (snapshots.rs:410-412). -/
def placeholderEvents (snap : SnapshotHeader) : List Event :=
  [Event.fetchL2Block snap.miniblock_number, Event.saveProtocolVersion,
   Event.insertMiniblock snap.miniblock_number, Event.updateHashes snap.miniblock_number,
   Event.insertL1Batch snap.last_l1_batch_number,
   Event.saveL1BatchMetadata snap.last_l1_batch_number,
   Event.markMiniblocksExecuted snap.last_l1_batch_number]

/-- The effect list of finalize_applying_snapshot started with record st. -/
def finalizeEvents (st : AppliedSnapshotStatus) (snap : SnapshotHeader) : List Event :=
  [Event.treeFinalize, Event.runStateKeeper, Event.runMetadataCalculator,
   Event.setStatus { st with is_finished := true },
   Event.clearDummyHeaders snap.l1_batch_number snap.miniblock_number]

/-- The record at the end of a full load_snapshot run. -/
def finalStatus (st : AppliedSnapshotStatus) (snap : SnapshotHeader) : AppliedSnapshotStatus :=
  { statusAfterChunks st snap.chunks with is_finished := true }

/-- Classification of the five kinds of durable per-chunk writes, used to state
the fixed write order of C4. -/
inductive WriteTag where
  | facDeps
  | storageLogs
  | initialWrites
  | treeExtend
  | persistCursor
deriving DecidableEq, Repr

/-- Project an event to its write class; log lines and blob fetches are not
writes. -/
def writeTag : Event → Option WriteTag
  | Event.writeFactoryDeps _ _ => some WriteTag.facDeps
  | Event.writeStorageLogs _ _ => some WriteTag.storageLogs
  | Event.writeInitialWrites _ _ => some WriteTag.initialWrites
  | Event.treeExtend _ => some WriteTag.treeExtend
  | Event.setStatus _ => some WriteTag.persistCursor
  | _ => none

/-- Recognize a tree-extension event. -/
def isTreeExtend : Event → Bool
  | Event.treeExtend _ => true
  | _ => false

/-- Recognize the tree-finalization event. -/
def isTreeFinalize : Event → Bool
  | Event.treeFinalize => true
  | _ => false

/-- Recognize a Canceled construction outcome. -/
def isCanceledE {α : Type} : Except SnapshotApplierError α → Bool
  | Except.error (SnapshotApplierError.Canceled _) => true
  | _ => false

/-- The chunk ids of a descriptor list, in header order. -/
def chunkIds (cs : List SnapshotChunkMetadata) : List Nat :=
  cs.map fun m => m.key.chunk_id

/-- The successive cursor values durably written by set_applied_snapshot_status
over a trace, in order. -/
def persistedCursors (evs : List Event) : List (Option Nat) :=
  evs.filterMap fun e =>
    match e with
    | Event.setStatus s => some s.last_finished_chunk_id
    | _ => none

/-- The cursor history of a run: the value persisted before the run started
(the record SnapshotApplier::new stored) followed by every cursor persisted
during the run. -/
def cursorHistory (st : AppliedSnapshotStatus) (evs : List Event) : List (Option Nat) :=
  st.last_finished_chunk_id :: persistedCursors evs

/-- Order on nullable cursors: an absent cursor precedes everything; a present
cursor never regresses to absent and compares by id. -/
def optLeB : Option Nat → Option Nat → Bool
  | none, _ => true
  | some _, none => false
  | some a, some b => decide (a ≤ b)

/-- Whether a cursor history is nondecreasing step by step. -/
def monotoneB : List (Option Nat) → Bool
  | [] => true
  | [_] => true
  | a :: b :: rest => optLeB a b && monotoneB (b :: rest)

/-- Last element of a cursor list, with a default for the empty list. -/
def lastD : List (Option Nat) → Option Nat → Option Nat
  | [], d => d
  | a :: l, _ => lastD l a

/-! Concrete fixtures used by evaluation theorems and witnesses. -/

/-- A blob store carrying, for every chunk key, no factory dependencies and one
storage-log entry derived from the chunk id. -/
def b0 : SnapshotStorageKey → SnapshotChunk :=
  fun k => { factory_deps := [],
             storage_logs := [{ key := k.chunk_id, value := 5, enumeration_index := k.chunk_id + 1 }] }

/-- A snapshot header for batch 100 with two chunks, ids 0 and 1. -/
def snapTwo : SnapshotHeader :=
  { l1_batch_number := 100, miniblock_number := 50, generated_at := 0,
    last_l1_batch_number := 100,
    chunks := [{ key := { chunk_id := 0 }, filepath := "chunk0" },
               { key := { chunk_id := 1 }, filepath := "chunk1" }] }

/-- A resumed-run record: batch 100, unfinished, chunk 0 already applied. -/
def stResume : AppliedSnapshotStatus :=
  { l1_batch_number := 100, is_finished := false, last_finished_chunk_id := some 0 }

/-- A resumed-run record with cursor 1. -/
def stCursorOne : AppliedSnapshotStatus :=
  { l1_batch_number := 100, is_finished := false, last_finished_chunk_id := some 1 }

/-- A fresh unfinished record for batch 100. -/
def stFresh : AppliedSnapshotStatus :=
  { l1_batch_number := 100, is_finished := false, last_finished_chunk_id := none }

/-- An unfinished record for batch 5. -/
def st5 : AppliedSnapshotStatus :=
  { l1_batch_number := 5, is_finished := false, last_finished_chunk_id := none }

/-- A chunkless snapshot header for batch 7. -/
def hdr7 : SnapshotHeader :=
  { l1_batch_number := 7, miniblock_number := 3, generated_at := 0,
    last_l1_batch_number := 7, chunks := [] }

/-! Embedding of l1_gas_price/main_node_fetcher.rs. The fee-model config type
is external (zksync_types::fee_model::MainNodeFeeModelConfig); the fetcher only
stores it and seeds it with its Default value, so the embedding is polymorphic
over it and takes the default value as an argument. -/

/-- Mirrors zksync_types::fee_model::MainNodeFeeParams as the fetcher uses it. -/
structure MainNodeFeeParams (Config : Type) where
  l1_gas_price : Nat
  l1_pubdata_price : Nat
  config : Config
deriving DecidableEq, Repr

/-- The initial stored value (main_node_fetcher.rs:38-42): l1_gas_price
1_000_000_000, l1_pubdata_price 17_000_000_000, Default config. -/
def initialFeeParams (Config : Type) (defaultConfig : Config) : MainNodeFeeParams Config :=
  { l1_gas_price := 1000000000, l1_pubdata_price := 17000000000, config := defaultConfig }

/-- One iteration of the run loop (main_node_fetcher.rs:59-69): a failed fetch
logs and leaves the stored value unchanged; a successful fetch overwrites it. -/
def fetcherStep (Config : Type) (st : MainNodeFeeParams Config)
    (fetch : Except String (MainNodeFeeParams Config)) : MainNodeFeeParams Config :=
  match fetch with
  | Except.ok price => price
  | Except.error _ => st

/-- Mirrors MainNodeBatchFeeInputFetcher::run (main_node_fetcher.rs:52-74) over
a finite schedule of fetch outcomes ending when the stop signal is observed:
the stored fee-model output after processing them in order. -/
def MainNodeBatchFeeInputFetcher.run (Config : Type) (st : MainNodeFeeParams Config)
    (fetches : List (Except String (MainNodeFeeParams Config))) : MainNodeFeeParams Config :=
  fetches.foldl (fetcherStep Config) st

/-- Mirrors BatchFeeModelInputProvider::get_fee_model_params
(main_node_fetcher.rs:77-81): a read of the stored value. -/
def get_fee_model_params (Config : Type) (st : MainNodeFeeParams Config) :
    MainNodeFeeParams Config := st

/-- The value of the most recent successful fetch in a schedule, if any. -/
def lastOk (Config : Type) :
    List (Except String (MainNodeFeeParams Config)) → Option (MainNodeFeeParams Config)
  | [] => none
  | fetch :: rest =>
    match lastOk Config rest with
    | some v => some v
    | none =>
      match fetch with
      | Except.ok v => some v
      | Except.error _ => none

/-! Embedding of node_framework/src/implementations/layers/consensus.rs. The
consensus config, secrets and MainNodeConfig types are external; the layer only
routes them, so the embedding is polymorphic over them. Resource acquisition
from the service context is modelled by availability flags. -/

/-- Mirrors the Mode enum (consensus.rs:20-24). -/
inductive Mode where
  | Main
  | External
deriving DecidableEq, Repr

/-- Mirrors WiringError as the layer produces it: a configuration error, a
missing resource (the question-mark on get_resource), or an error escaping
config.main_node (consensus.rs:55). -/
inductive WiringError where
  | Configuration (msg : String)
  | ResourceLacking (name : String)
  | Internal (msg : String)
deriving DecidableEq, Repr

/-- The task the layer registers with the service context. -/
inductive WiredTask (Cfg Sec Mnc : Type) where
  | mainNodeConsensusTask (config : Mnc)
  | fetcherTask (config : Option (Cfg × Sec))
deriving DecidableEq, Repr

/-- Availability of the four resources the layer pulls from the context:
master pool (both modes), and main node client, sync state and action queue
sender (External mode, consensus.rs:64-75). -/
structure WiringResources where
  master_pool : Bool
  main_node_client : Bool
  sync_state : Bool
  action_queue_sender : Bool
deriving DecidableEq, Repr

/-- All resources available. -/
def goodResources : WiringResources :=
  { master_pool := true, main_node_client := true, sync_state := true,
    action_queue_sender := true }

/-- Mirrors ConsensusLayer::wire (consensus.rs:39-103). main_node models
config.main_node(secrets). -/
def ConsensusLayer.wire (Cfg Sec Mnc : Type) (mode : Mode)
    (config : Option Cfg) (secrets : Option Sec) (ctx : WiringResources)
    (main_node : Cfg → Sec → Except String Mnc) :
    Except WiringError (WiredTask Cfg Sec Mnc) :=
  if !ctx.master_pool then
    Except.error (WiringError.ResourceLacking "master_pool")
  else
    match mode with
    | Mode.Main =>
      match config with
      | none => Except.error (WiringError.Configuration "Missing public consensus config")
      | some cfg =>
        match secrets with
        | none => Except.error (WiringError.Configuration "Missing private consensus config")
        | some sec =>
          match main_node cfg sec with
          | Except.error e => Except.error (WiringError.Internal e)
          | Except.ok main_node_config =>
            Except.ok (WiredTask.mainNodeConsensusTask main_node_config)
    | Mode.External =>
      if !ctx.main_node_client then
        Except.error (WiringError.ResourceLacking "main_node_client")
      else if !ctx.sync_state then
        Except.error (WiringError.ResourceLacking "sync_state")
      else if !ctx.action_queue_sender then
        Except.error (WiringError.Configuration
          "Action queue sender is taken by another resource")
      else
        match config, secrets with
        | some cfg, some sec => Except.ok (WiredTask.fetcherTask (some (cfg, sec)))
        | some _, none => Except.error (WiringError.Configuration
            "Consensus config is specified, but secrets are missing")
        | none, _ => Except.ok (WiredTask.fetcherTask none)

/-- Recognize a Configuration wiring error. -/
def isConfigurationError {α : Type} : Except WiringError α → Bool
  | Except.error (WiringError.Configuration _) => true
  | _ => false

/-- A trivial main_node conversion used by witnesses. -/
def mainNodeConv0 : Nat → Nat → Except String Nat := fun _ _ => Except.ok 0

/-! Structural lemmas: the embedded source functions compute the normal forms. -/

theorem sync_single_chunk_eq (blob_store : SnapshotStorageKey → SnapshotChunk)
    (st : AppliedSnapshotStatus) (snap : SnapshotHeader) (evs : List Event)
    (m : SnapshotChunkMetadata) :
    sync_single_chunk blob_store { status := st, snapshot := snap, events := evs } m
      = { status := newCursorStatus st m.key.chunk_id, snapshot := snap,
          events := evs ++ chunkEvents blob_store snap st m } := by
  unfold sync_single_chunk chunkEvents sync_factory_deps_chunk sync_storage_logs_chunk
    sync_initial_writes_chunk sync_tree_chunk set_applied_snapshot_status emit newCursorStatus
  by_cases h1 : skipLogCond st m.key.chunk_id <;>
    by_cases h2 : (blob_store m.key).factory_deps.isEmpty <;>
      simp [h1, h2, List.append_assoc]

theorem foldl_sync_single_chunk (blob_store : SnapshotStorageKey → SnapshotChunk)
    (snap : SnapshotHeader) (cs : List SnapshotChunkMetadata) :
    ∀ (st : AppliedSnapshotStatus) (evs : List Event),
      cs.foldl (sync_single_chunk blob_store) { status := st, snapshot := snap, events := evs }
        = { status := statusAfterChunks st cs, snapshot := snap,
            events := evs ++ chunkTrace blob_store snap st cs } := by
  induction cs with
  | nil => intro st evs; simp [statusAfterChunks, chunkTrace]
  | cons m ms ih =>
    intro st evs
    simp only [List.foldl_cons, sync_single_chunk_eq, ih, statusAfterChunks, chunkTrace,
      List.append_assoc]

theorem finalize_applying_snapshot_eq (st : AppliedSnapshotStatus)
    (snap : SnapshotHeader) (evs : List Event) :
    finalize_applying_snapshot { status := st, snapshot := snap, events := evs }
      = { status := { st with is_finished := true }, snapshot := snap,
          events := evs ++ finalizeEvents st snap } := by
  unfold finalize_applying_snapshot set_applied_snapshot_status emit finalizeEvents
  simp [List.append_assoc]

theorem load_snapshot_eq (blob_store : SnapshotStorageKey → SnapshotChunk)
    (st : AppliedSnapshotStatus) (snap : SnapshotHeader) :
    load_snapshot blob_store { status := st, snapshot := snap, events := [] }
      = { status := finalStatus st snap, snapshot := snap,
          events := placeholderEvents snap ++ chunkTrace blob_store snap st snap.chunks
            ++ finalizeEvents (statusAfterChunks st snap.chunks) snap } := by
  have h1 : insert_dummy_l1_batch_metadata (insert_dummy_miniblock_header
      { status := st, snapshot := snap, events := [] })
      = { status := st, snapshot := snap, events := placeholderEvents snap } := by
    unfold insert_dummy_l1_batch_metadata insert_dummy_miniblock_header emit placeholderEvents
    simp
  unfold load_snapshot
  simp only [h1, foldl_sync_single_chunk, finalize_applying_snapshot_eq]
  simp [finalStatus, List.append_assoc]

theorem load_snapshot_events (blob_store : SnapshotStorageKey → SnapshotChunk)
    (st : AppliedSnapshotStatus) (snap : SnapshotHeader) :
    (load_snapshot blob_store { status := st, snapshot := snap, events := [] }).events
      = placeholderEvents snap ++ chunkTrace blob_store snap st snap.chunks
        ++ finalizeEvents (statusAfterChunks st snap.chunks) snap := by
  rw [load_snapshot_eq]

theorem newCursorStatus_is_finished (st : AppliedSnapshotStatus) (chunk_id : Nat) :
    (newCursorStatus st chunk_id).is_finished = st.is_finished := rfl

theorem statusAfterChunks_is_finished (cs : List SnapshotChunkMetadata) :
    ∀ st : AppliedSnapshotStatus, (statusAfterChunks st cs).is_finished = st.is_finished := by
  induction cs with
  | nil => intro st; rfl
  | cons m ms ih => intro st; simp [statusAfterChunks, ih, newCursorStatus]

theorem treeFinalize_not_mem_chunkEvents (blob_store : SnapshotStorageKey → SnapshotChunk)
    (snap : SnapshotHeader) (st : AppliedSnapshotStatus) (m : SnapshotChunkMetadata) :
    Event.treeFinalize ∉ chunkEvents blob_store snap st m := by
  unfold chunkEvents
  by_cases h1 : skipLogCond st m.key.chunk_id <;>
    by_cases h2 : (blob_store m.key).factory_deps.isEmpty <;>
      simp [h1, h2]

theorem treeFinalize_not_mem_chunkTrace (blob_store : SnapshotStorageKey → SnapshotChunk)
    (snap : SnapshotHeader) (cs : List SnapshotChunkMetadata) :
    ∀ st : AppliedSnapshotStatus, Event.treeFinalize ∉ chunkTrace blob_store snap st cs := by
  induction cs with
  | nil => intro st; simp [chunkTrace]
  | cons m ms ih =>
    intro st
    simp only [chunkTrace, List.mem_append]
    push_neg
    exact ⟨treeFinalize_not_mem_chunkEvents blob_store snap st m, ih _⟩

theorem setStatus_mem_chunkEvents (blob_store : SnapshotStorageKey → SnapshotChunk)
    (snap : SnapshotHeader) (st : AppliedSnapshotStatus) (m : SnapshotChunkMetadata)
    (s : AppliedSnapshotStatus) :
    Event.setStatus s ∈ chunkEvents blob_store snap st m →
      s = newCursorStatus st m.key.chunk_id := by
  unfold chunkEvents
  by_cases h1 : skipLogCond st m.key.chunk_id <;>
    by_cases h2 : (blob_store m.key).factory_deps.isEmpty <;>
      simp [h1, h2]

theorem setStatus_mem_chunkTrace_is_finished (blob_store : SnapshotStorageKey → SnapshotChunk)
    (snap : SnapshotHeader) (cs : List SnapshotChunkMetadata) :
    ∀ (st s : AppliedSnapshotStatus),
      Event.setStatus s ∈ chunkTrace blob_store snap st cs →
        s.is_finished = st.is_finished := by
  induction cs with
  | nil => intro st s h; simp [chunkTrace] at h
  | cons m ms ih =>
    intro st s h
    simp only [chunkTrace, List.mem_append] at h
    rcases h with h | h
    · rw [setStatus_mem_chunkEvents blob_store snap st m s h]; rfl
    · rw [ih _ s h, newCursorStatus_is_finished]

theorem countP_chunkEvents_treeExtend (blob_store : SnapshotStorageKey → SnapshotChunk)
    (snap : SnapshotHeader) (st : AppliedSnapshotStatus) (m : SnapshotChunkMetadata) :
    (chunkEvents blob_store snap st m).countP isTreeExtend = 1 := by
  unfold chunkEvents
  by_cases h1 : skipLogCond st m.key.chunk_id <;>
    by_cases h2 : (blob_store m.key).factory_deps.isEmpty <;>
      simp [h1, h2, List.countP_cons, List.countP_append, isTreeExtend]

theorem countP_chunkEvents_treeFinalize (blob_store : SnapshotStorageKey → SnapshotChunk)
    (snap : SnapshotHeader) (st : AppliedSnapshotStatus) (m : SnapshotChunkMetadata) :
    (chunkEvents blob_store snap st m).countP isTreeFinalize = 0 := by
  unfold chunkEvents
  by_cases h1 : skipLogCond st m.key.chunk_id <;>
    by_cases h2 : (blob_store m.key).factory_deps.isEmpty <;>
      simp [h1, h2, List.countP_cons, List.countP_append, isTreeFinalize]

theorem countP_chunkTrace_treeExtend (blob_store : SnapshotStorageKey → SnapshotChunk)
    (snap : SnapshotHeader) (cs : List SnapshotChunkMetadata) :
    ∀ st : AppliedSnapshotStatus,
      (chunkTrace blob_store snap st cs).countP isTreeExtend = cs.length := by
  induction cs with
  | nil => intro st; simp [chunkTrace]
  | cons m ms ih =>
    intro st
    simp [chunkTrace, List.countP_append, countP_chunkEvents_treeExtend, ih, Nat.add_comm]

theorem countP_chunkTrace_treeFinalize (blob_store : SnapshotStorageKey → SnapshotChunk)
    (snap : SnapshotHeader) (cs : List SnapshotChunkMetadata) :
    ∀ st : AppliedSnapshotStatus,
      (chunkTrace blob_store snap st cs).countP isTreeFinalize = 0 := by
  induction cs with
  | nil => intro st; simp [chunkTrace]
  | cons m ms ih =>
    intro st
    simp [chunkTrace, List.countP_append, countP_chunkEvents_treeFinalize, ih]

theorem isTreeFinalize_eq_false {e : Event} (h : e ≠ Event.treeFinalize) :
    isTreeFinalize e = false := by
  cases e <;> simp [isTreeFinalize] at h ⊢

theorem dropWhile_append_all {α : Type} (p : α → Bool) (l₁ : List α) (l₂ : List α) :
    (∀ e ∈ l₁, p e = true) → (l₁ ++ l₂).dropWhile p = l₂.dropWhile p := by
  induction l₁ with
  | nil => intro _; rfl
  | cons a l ih =>
    intro h
    have ha : p a = true := h a (by simp)
    simp only [List.cons_append, List.dropWhile_cons, ha, if_true]
    exact ih fun e he => h e (by simp [he])

theorem persistedCursors_append (l₁ l₂ : List Event) :
    persistedCursors (l₁ ++ l₂) = persistedCursors l₁ ++ persistedCursors l₂ := by
  simp [persistedCursors, List.filterMap_append]

theorem persistedCursors_chunkEvents (blob_store : SnapshotStorageKey → SnapshotChunk)
    (snap : SnapshotHeader) (st : AppliedSnapshotStatus) (m : SnapshotChunkMetadata) :
    persistedCursors (chunkEvents blob_store snap st m) = [some m.key.chunk_id] := by
  unfold chunkEvents persistedCursors
  by_cases h1 : skipLogCond st m.key.chunk_id <;>
    by_cases h2 : (blob_store m.key).factory_deps.isEmpty <;>
      simp [h1, h2, newCursorStatus]

theorem persistedCursors_chunkTrace (blob_store : SnapshotStorageKey → SnapshotChunk)
    (snap : SnapshotHeader) (cs : List SnapshotChunkMetadata) :
    ∀ st : AppliedSnapshotStatus,
      persistedCursors (chunkTrace blob_store snap st cs) = (chunkIds cs).map some := by
  induction cs with
  | nil => intro st; simp [chunkTrace, persistedCursors, chunkIds]
  | cons m ms ih =>
    intro st
    simp [chunkTrace, persistedCursors_append, persistedCursors_chunkEvents, ih, chunkIds]

theorem statusAfterChunks_cursor (cs : List SnapshotChunkMetadata) :
    ∀ st : AppliedSnapshotStatus,
      (statusAfterChunks st cs).last_finished_chunk_id
        = lastD ((chunkIds cs).map some) st.last_finished_chunk_id := by
  induction cs with
  | nil => intro st; rfl
  | cons m ms ih =>
    intro st
    simp only [statusAfterChunks, chunkIds, List.map_cons, lastD]
    rw [ih]
    rfl

theorem optLeB_refl (x : Option Nat) : optLeB x x = true := by
  cases x <;> simp [optLeB]

theorem monotoneB_snoc_lastD (l : List (Option Nat)) :
    ∀ x : Option Nat, monotoneB (x :: l) = true →
      monotoneB ((x :: l) ++ [lastD l x]) = true := by
  induction l with
  | nil =>
    intro x _
    simp [lastD, monotoneB, optLeB_refl]
  | cons a l ih =>
    intro x h
    simp only [monotoneB, Bool.and_eq_true] at h
    have := ih a h.2
    simp only [List.cons_append, lastD, monotoneB, Bool.and_eq_true]
    refine ⟨h.1, ?_⟩
    simpa [lastD] using this

theorem fetcher_run_lastOk (Config : Type)
    (fetches : List (Except String (MainNodeFeeParams Config))) :
    ∀ st : MainNodeFeeParams Config,
      MainNodeBatchFeeInputFetcher.run Config st fetches = (lastOk Config fetches).getD st := by
  induction fetches with
  | nil => intro st; rfl
  | cons fetch rest ih =>
    intro st
    simp only [MainNodeBatchFeeInputFetcher.run, List.foldl_cons] at *
    rw [ih]
    cases hrest : lastOk Config rest with
    | some v => simp [lastOk, hrest]
    | none =>
      cases fetch with
      | ok v => simp [lastOk, hrest, fetcherStep]
      | error e => simp [lastOk, hrest, fetcherStep]

/-! Claim theorems. -/

/-- C1 (code is wrong here): on a resumed run with persisted cursor 0 over a
two-chunk snapshot, chunk 0 (id ≤ cursor) is NOT skipped: its blob is fetched
again, because the skip check in sync_single_chunk only logs and falls through;
moreover the "file already processed" message fires for chunk 1, whose id is
GREATER than the cursor, and not for chunk 0 — the comparison in the source is
inverted. -/
theorem C1_resume_reprocesses_chunks :
    (Event.fetchBlob { chunk_id := 0 }
        ∈ (load_snapshot b0 { status := stResume, snapshot := snapTwo, events := [] }).events)
  ∧ (Event.logSkipAlreadyProcessed 1
        ∈ (load_snapshot b0 { status := stResume, snapshot := snapTwo, events := [] }).events)
  ∧ (Event.logSkipAlreadyProcessed 0
        ∉ (load_snapshot b0 { status := stResume, snapshot := snapTwo, events := [] }).events) := by
  decide

/-- C2: SnapshotApplier::new returns Canceled exactly when (a) genesis is
already present with no progress record, (b) a finished record exists, or
(c) the peer reports no snapshot; in all other cases (with the object store
creatable) it proceeds, reusing the existing unfinished record or creating a
fresh unfinished one from the discovered snapshot. -/
theorem C2_new_canceled_characterization (genesis_needed : Bool)
    (existing : Option AppliedSnapshotStatus) (snapshot_response : Option SnapshotHeader)
    (blob_store_ok : Bool) :
    (isCanceledE (SnapshotApplier.new genesis_needed existing snapshot_response blob_store_ok)
      = ((!genesis_needed && existing.isNone) || statusIsFinished existing
          || snapshot_response.isNone))
  ∧ (∀ snap : SnapshotHeader, snapshot_response = some snap → blob_store_ok = true →
      ((!genesis_needed && existing.isNone) || statusIsFinished existing) = false →
      SnapshotApplier.new genesis_needed existing snapshot_response blob_store_ok
        = Except.ok (existing.getD
            { l1_batch_number := snap.l1_batch_number, is_finished := false,
              last_finished_chunk_id := none }, snap, snap.l1_batch_number)) := by
  constructor
  · rcases existing with _ | s
    · rcases snapshot_response with _ | snap <;> cases genesis_needed <;> cases blob_store_ok <;>
        simp [SnapshotApplier.new, isCanceledE, statusIsFinished]
    · cases hf : s.is_finished <;>
        rcases snapshot_response with _ | snap <;> cases genesis_needed <;> cases blob_store_ok <;>
        simp [SnapshotApplier.new, isCanceledE, statusIsFinished, hf]
  · intro snap hresp hok hcond
    subst hresp; subst hok
    simp only [Bool.or_eq_false_iff] at hcond
    simp [SnapshotApplier.new, hcond.1, hcond.2]

/-- Witness for C2 at a concrete input: fresh node (genesis needed), no record,
snapshot available — not Canceled, and construction creates a fresh unfinished
record for the discovered batch. -/
theorem C2_new_canceled_witness :
    (isCanceledE (SnapshotApplier.new true none (some hdr7) true) = false)
  ∧ (SnapshotApplier.new true none (some hdr7) true
      = Except.ok
          ({ l1_batch_number := hdr7.l1_batch_number, is_finished := false,
             last_finished_chunk_id := none }, hdr7, hdr7.l1_batch_number)) :=
  ⟨(C2_new_canceled_characterization true none (some hdr7) true).1,
   (C2_new_canceled_characterization true none (some hdr7) true).2 hdr7 rfl rfl rfl⟩

/-- C3 counterexample: an unfinished record for batch 5 coexists with a newly
discovered snapshot for batch 7; SnapshotApplier::new succeeds (no Fatal error,
no mismatch check) even though the batch numbers differ. -/
theorem C3_mismatch_not_fatal_counterexample :
    SnapshotApplier.new true (some st5) (some hdr7) true = Except.ok (st5, hdr7, 7)
  ∧ st5.l1_batch_number ≠ hdr7.l1_batch_number :=
  ⟨rfl, by decide⟩

/-- C3 amended: if an unfinished progress record exists, construction succeeds
and reuses that record unchanged regardless of the discovered snapshot's batch
number — the source performs no mismatch check. -/
theorem C3_amended_reuse_without_check (genesis_needed : Bool)
    (s : AppliedSnapshotStatus) (snap : SnapshotHeader)
    (hs : s.is_finished = false) :
    SnapshotApplier.new genesis_needed (some s) (some snap) true
      = Except.ok (s, snap, snap.l1_batch_number) := by
  simp [SnapshotApplier.new, statusIsFinished, hs]

/-- Witness for the amended C3 at the mismatched concrete input. -/
theorem C3_amended_reuse_witness :
    SnapshotApplier.new true (some st5) (some hdr7) true
      = Except.ok (st5, hdr7, hdr7.l1_batch_number) :=
  C3_amended_reuse_without_check true st5 hdr7 rfl

/-- C4: for every chunk sync_single_chunk applies, the durable writes happen in
the fixed order factory-deps (skipped exactly when the chunk carries none),
storage logs, initial-write dedup records, tree extension, and only then the
cursor persist; and the in-memory record afterwards carries this chunk's id. -/
theorem C4_chunk_write_order (blob_store : SnapshotStorageKey → SnapshotChunk)
    (st : AppliedSnapshotStatus) (snap : SnapshotHeader) (m : SnapshotChunkMetadata) :
    ((sync_single_chunk blob_store { status := st, snapshot := snap, events := [] } m).events.filterMap
        writeTag
      = (if (blob_store m.key).factory_deps.isEmpty then [] else [WriteTag.facDeps])
        ++ [WriteTag.storageLogs, WriteTag.initialWrites, WriteTag.treeExtend,
            WriteTag.persistCursor])
  ∧ (sync_single_chunk blob_store { status := st, snapshot := snap, events := [] } m).status
      = newCursorStatus st m.key.chunk_id := by
  rw [sync_single_chunk_eq]
  constructor
  · unfold chunkEvents
    by_cases h1 : skipLogCond st m.key.chunk_id <;>
      by_cases h2 : (blob_store m.key).factory_deps.isEmpty <;>
        simp [h1, h2, writeTag, List.filterMap_append]
  · rfl

/-- C5: a recovery run emits, in order, the placeholder miniblock header and
placeholder L1-batch metadata, then all chunk events, then tree finalization,
then both bootstrap pipelines, then the finished-flag persist, then the
placeholder cleanup; the chunk phase contains no tree finalization and never
persists a record with a changed finished flag. -/
theorem C5_stage_order (blob_store : SnapshotStorageKey → SnapshotChunk)
    (st : AppliedSnapshotStatus) (snap : SnapshotHeader) (s : AppliedSnapshotStatus) :
    ((load_snapshot blob_store { status := st, snapshot := snap, events := [] }).events
      = placeholderEvents snap ++ chunkTrace blob_store snap st snap.chunks
        ++ [Event.treeFinalize, Event.runStateKeeper, Event.runMetadataCalculator,
            Event.setStatus (finalStatus st snap),
            Event.clearDummyHeaders snap.l1_batch_number snap.miniblock_number])
  ∧ (finalStatus st snap).is_finished = true
  ∧ Event.treeFinalize ∉ placeholderEvents snap
  ∧ Event.treeFinalize ∉ chunkTrace blob_store snap st snap.chunks
  ∧ (Event.setStatus s ∈ chunkTrace blob_store snap st snap.chunks →
      s.is_finished = st.is_finished) := by
  refine ⟨?_, rfl, ?_, treeFinalize_not_mem_chunkTrace blob_store snap snap.chunks st,
    setStatus_mem_chunkTrace_is_finished blob_store snap snap.chunks st s⟩
  · rw [load_snapshot_events]
    simp [finalizeEvents, finalStatus]
  · simp [placeholderEvents]

/-- Witness for C5 at a concrete two-chunk run. -/
theorem C5_stage_order_witness :
    ((load_snapshot b0 { status := stFresh, snapshot := snapTwo, events := [] }).events
      = placeholderEvents snapTwo ++ chunkTrace b0 snapTwo stFresh snapTwo.chunks
        ++ [Event.treeFinalize, Event.runStateKeeper, Event.runMetadataCalculator,
            Event.setStatus (finalStatus stFresh snapTwo),
            Event.clearDummyHeaders snapTwo.l1_batch_number snapTwo.miniblock_number])
  ∧ (newCursorStatus stFresh 0).is_finished = stFresh.is_finished :=
  ⟨(C5_stage_order b0 stFresh snapTwo (newCursorStatus stFresh 0)).1,
   (C5_stage_order b0 stFresh snapTwo (newCursorStatus stFresh 0)).2.2.2.2 (by decide)⟩

/-- C6 (code is wrong here): when SnapshotApplier::new returns Canceled —
here: genesis already present, no progress record — the top-level
load_from_snapshot_if_needed panics (it unwraps the Err) instead of returning
normally to let startup continue. -/
theorem C6_canceled_panics_startup :
    load_from_snapshot_if_needed b0 false none (some hdr7) true = RunOutcome.panicked
  ∧ isCanceledE (SnapshotApplier.new false none (some hdr7) true) = true :=
  ⟨rfl, rfl⟩

/-- C7 counterexample: on a resumed run whose persisted cursor is 1 over a
snapshot listing chunks 0 and 1, the run re-persists cursor 0 after cursor 1
was already durable: the persisted cursor history decreases and no update is
rejected. -/
theorem C7_cursor_decrease_counterexample :
    persistedCursors
        (load_snapshot b0 { status := stCursorOne, snapshot := snapTwo, events := [] }).events
      = [some 0, some 1, some 1]
  ∧ monotoneB (cursorHistory stCursorOne
      (load_snapshot b0 { status := stCursorOne, snapshot := snapTwo, events := [] }).events)
      = false := by
  decide

/-- C7 amended: each cursor persist unconditionally stores the current chunk's
id in header-list order (followed by one re-persist of the final value when the
finished flag is set); no decreasing update is rejected. Consequently the
persisted history is nondecreasing exactly under the extra assumption that the
initial cursor followed by the header's chunk ids is nondecreasing. -/
theorem C7_amended_cursor_updates (blob_store : SnapshotStorageKey → SnapshotChunk)
    (st : AppliedSnapshotStatus) (snap : SnapshotHeader) :
    (cursorHistory st
        (load_snapshot blob_store { status := st, snapshot := snap, events := [] }).events
      = (st.last_finished_chunk_id :: (chunkIds snap.chunks).map some)
        ++ [lastD ((chunkIds snap.chunks).map some) st.last_finished_chunk_id])
  ∧ (monotoneB (st.last_finished_chunk_id :: (chunkIds snap.chunks).map some) = true →
      monotoneB (cursorHistory st
        (load_snapshot blob_store { status := st, snapshot := snap, events := [] }).events)
        = true) := by
  have hp : persistedCursors (placeholderEvents snap) = ([] : List (Option Nat)) := rfl
  have hf : persistedCursors (finalizeEvents (statusAfterChunks st snap.chunks) snap)
      = [(statusAfterChunks st snap.chunks).last_finished_chunk_id] := rfl
  have heq : cursorHistory st
      (load_snapshot blob_store { status := st, snapshot := snap, events := [] }).events
      = (st.last_finished_chunk_id :: (chunkIds snap.chunks).map some)
        ++ [lastD ((chunkIds snap.chunks).map some) st.last_finished_chunk_id] := by
    simp only [cursorHistory, load_snapshot_events, persistedCursors_append,
      persistedCursors_chunkTrace, hp, hf, statusAfterChunks_cursor]
    simp
  refine ⟨heq, fun hmono => ?_⟩
  rw [heq]
  exact monotoneB_snoc_lastD _ _ hmono

/-- Witness for the amended C7: fresh record, ascending chunk ids — the
persisted cursor history of the run is nondecreasing. -/
theorem C7_amended_cursor_witness :
    monotoneB (cursorHistory stFresh
      (load_snapshot b0 { status := stFresh, snapshot := snapTwo, events := [] }).events)
      = true :=
  (C7_amended_cursor_updates b0 stFresh snapTwo).2 (by decide)

/-- C8: the recovery tree is opened at a fixed version equal to the snapshot's
batch number; one extend per applied chunk (as many as the header lists); and
exactly one finalize per run, emitted after every extend. -/
theorem C8_tree_recovery_usage (genesis_needed : Bool)
    (existing : Option AppliedSnapshotStatus) (snapshot_response : Option SnapshotHeader)
    (blob_store_ok : Bool) (stR : AppliedSnapshotStatus) (snapR : SnapshotHeader)
    (version : Nat) (blob_store : SnapshotStorageKey → SnapshotChunk)
    (st : AppliedSnapshotStatus) (snap : SnapshotHeader) :
    (SnapshotApplier.new genesis_needed existing snapshot_response blob_store_ok
        = Except.ok (stR, snapR, version) → version = snapR.l1_batch_number)
  ∧ ((load_snapshot blob_store { status := st, snapshot := snap, events := [] }).events.countP
        isTreeExtend = snap.chunks.length)
  ∧ ((load_snapshot blob_store { status := st, snapshot := snap, events := [] }).events.countP
        isTreeFinalize = 1)
  ∧ (((load_snapshot blob_store { status := st, snapshot := snap, events := [] }).events.dropWhile
        fun e => !isTreeFinalize e).countP isTreeExtend = 0) := by
  refine ⟨?_, ?_, ?_, ?_⟩
  · intro h
    simp only [SnapshotApplier.new] at h
    split at h
    · exact absurd h (by simp)
    · split at h
      · exact absurd h (by simp)
      · split at h
        · exact absurd h (by simp)
        · split at h
          · simp only [Except.ok.injEq, Prod.mk.injEq] at h
            obtain ⟨-, h2, h3⟩ := h
            subst h2
            exact h3.symm
          · exact absurd h (by simp)
  · rw [load_snapshot_events]
    simp [List.countP_append, countP_chunkTrace_treeExtend, placeholderEvents, finalizeEvents,
      List.countP_cons, isTreeExtend]
  · rw [load_snapshot_events]
    simp [List.countP_append, countP_chunkTrace_treeFinalize, placeholderEvents, finalizeEvents,
      List.countP_cons, isTreeFinalize]
  · rw [load_snapshot_events]
    rw [dropWhile_append_all (fun e => !isTreeFinalize e)
      (placeholderEvents snap ++ chunkTrace blob_store snap st snap.chunks)
      (finalizeEvents (statusAfterChunks st snap.chunks) snap) ?_]
    · simp [finalizeEvents, List.dropWhile, isTreeFinalize, isTreeExtend, List.countP_cons]
    · intro e he
      have hne : e ≠ Event.treeFinalize := by
        intro heq
        subst heq
        rcases List.mem_append.mp he with h | h
        · simp [placeholderEvents] at h
        · exact treeFinalize_not_mem_chunkTrace blob_store snap snap.chunks st h
      simp [isTreeFinalize_eq_false hne]

/-- Witness for C8: concrete discovery of the batch-7 snapshot opens the tree
at version 7. -/
theorem C8_tree_recovery_witness : (7 : Nat) = hdr7.l1_batch_number :=
  (C8_tree_recovery_usage true none (some hdr7) true
    { l1_batch_number := 7, is_finished := false, last_finished_chunk_id := none }
    hdr7 7 b0 stFresh hdr7).1 rfl

/-- C9: over any schedule of fetch outcomes, a failed fetch leaves the stored
fee-model output unchanged, and get_fee_model_params returns the most recent
successfully fetched value, or the built-in defaults (l1_gas_price
1_000_000_000, l1_pubdata_price 17_000_000_000, default config) before any
fetch succeeded. -/
theorem C9_fee_fetcher_last_success (Config : Type) (defaultConfig : Config)
    (fetches : List (Except String (MainNodeFeeParams Config))) :
    (get_fee_model_params Config
        (MainNodeBatchFeeInputFetcher.run Config (initialFeeParams Config defaultConfig) fetches)
      = (lastOk Config fetches).getD (initialFeeParams Config defaultConfig))
  ∧ (∀ (st : MainNodeFeeParams Config) (e : String),
      fetcherStep Config st (Except.error e) = st)
  ∧ (initialFeeParams Config defaultConfig).l1_gas_price = 1000000000
  ∧ (initialFeeParams Config defaultConfig).l1_pubdata_price = 17000000000
  ∧ (initialFeeParams Config defaultConfig).config = defaultConfig :=
  ⟨fetcher_run_lastOk Config fetches (initialFeeParams Config defaultConfig),
   fun _ _ => rfl, rfl, rfl, rfl⟩

/-- C10: in External mode, a consensus config without secrets is a
configuration error, while no config (secrets or not) wires the fetcher task
with consensus disabled; in Main mode, a missing config or missing secrets is a
configuration error. -/
theorem C10_consensus_wiring (Cfg Sec Mnc : Type) (cfg : Cfg) (sec : Option Sec)
    (config : Option Cfg) (secrets : Option Sec)
    (main_node : Cfg → Sec → Except String Mnc) :
    (ConsensusLayer.wire Cfg Sec Mnc Mode.External (some cfg) none goodResources main_node
      = Except.error (WiringError.Configuration
          "Consensus config is specified, but secrets are missing"))
  ∧ (ConsensusLayer.wire Cfg Sec Mnc Mode.External none sec goodResources main_node
      = Except.ok (WiredTask.fetcherTask none))
  ∧ (config.isNone = true ∨ secrets.isNone = true →
      isConfigurationError
        (ConsensusLayer.wire Cfg Sec Mnc Mode.Main config secrets goodResources main_node)
        = true) := by
  refine ⟨rfl, ?_, ?_⟩
  · cases sec <;> rfl
  · intro h
    rcases config with _ | cfg2
    · rfl
    · rcases secrets with _ | sec2
      · rfl
      · rcases h with h | h <;> simp at h

/-- Witness for C10: Main mode with both config and secrets missing is a
configuration error. -/
theorem C10_consensus_wiring_witness :
    isConfigurationError
      (ConsensusLayer.wire Nat Nat Nat Mode.Main none none goodResources mainNodeConv0)
      = true :=
  (C10_consensus_wiring Nat Nat Nat 0 none none none mainNodeConv0).2.2 (Or.inl rfl)

end ZkSync
